import Mathlib

/-!
Verification of the Drive adapter core of this repository: the recursive
lister (tool list_folder_recursive, function traverseFolder), the tree
builder (tool get_folder_tree, function buildTree) and the path resolver
(tool get_folder_id_for_path), all from src/drive/index.js.

The storage backend (the Google Drive REST client) is an external
collaborator.  The traversal tools only read, so their backend is a pure
map from a parent id to the ordered, non-trashed children of that parent,
plus a set of ids whose list call throws.  The query string the code sends
is modelled structurally: every query of these tools carries the fixed
conjunct trashed = false, an optional set of mimeType conjuncts, a page
size and an optional orderBy name, and the backend is assumed to honour
them; the model applies the same filter to the stored children.  The path
resolver can create folders, so its backend is an explicit state value
threaded through the walk.
-/

/-- The folder MIME type constant used throughout src/drive/index.js. -/
def folderMime : String := "application/vnd.google-apps.folder"

/-- A backend entry as returned by drive.files.list: the fields the three
tools read (id, name, mimeType, size) plus the trashed flag that every
query filters on. -/
structure Entry where
  id : String
  name : String
  mimeType : String
  size : Option Nat
  trashed : Bool
deriving DecidableEq

/-- One mimeType conjunct of a list query, as pushed into q by the code:
mimeType = folder, mimeType != folder, or mimeType = m for a given m. -/
inductive MimeCond where
  | eqFolder
  | neFolder
  | eqm (m : String)
deriving DecidableEq

/-- Whether an entry satisfies one mimeType conjunct. -/
def mimeSat : MimeCond → Entry → Bool
  | .eqFolder, e => e.mimeType == folderMime
  | .neFolder, e => e.mimeType != folderMime
  | .eqm m, e => e.mimeType == m

/-- A structured list query: parent, mimeType conjuncts, pageSize, and
whether the request carries orderBy name.  Every query of the three tools
also carries trashed = false, which is applied unconditionally. -/
structure ListQ where
  parentId : String
  conds : List MimeCond
  pageSize : Nat
  orderByName : Bool
deriving DecidableEq

/-- Bool comparison of char lists by code point, kernel-reducible. -/
def charsLt : List Char → List Char → Bool
  | [], [] => false
  | [], _ :: _ => true
  | _ :: _, [] => false
  | a :: as, b :: bs =>
    if Nat.blt a.toNat b.toNat then true
    else if Nat.blt b.toNat a.toNat then false
    else charsLt as bs

/-- Strict name order on entries (lexicographic by code point). -/
def nameLt (a b : Entry) : Bool := charsLt a.name.toList b.name.toList

/-- Stable insertion for the orderBy name sort. -/
def insertByName (e : Entry) : List Entry → List Entry
  | [] => [e]
  | x :: xs => if nameLt e x then e :: x :: xs else x :: insertByName e xs

/-- Name sort modelling the orderBy name request parameter. -/
def sortByName : List Entry → List Entry
  | [] => []
  | x :: xs => insertByName x (sortByName xs)

/-- The read-only backend used by the two traversal tools: the ordered
non-trashed children listing per parent id, the ids whose list call
throws, and the metadata lookup used by get_folder_tree for the root
name. -/
structure Backend where
  childrenOf : String → List Entry
  failing : String → Bool
  getName : String → Except String String

/-- The backend executing one drive.files.list call: filter the children
of the parent by the query conjuncts (and trashed = false), apply orderBy
name when requested, and return the first page. -/
def Backend.list (b : Backend) (q : ListQ) : List Entry :=
  let hits := (b.childrenOf q.parentId).filter
    (fun e => !e.trashed && q.conds.all (fun c => mimeSat c e))
  let ordered := if q.orderByName then sortByName hits else hits
  ordered.take q.pageSize

/-! Recursive lister: tool list_folder_recursive, src/drive/index.js
lines 1105-1165. -/

/-- An output item of list_folder_recursive: the spread entry fields plus
the computed path and depth (line 1138-1142). -/
structure Item where
  id : String
  name : String
  mimeType : String
  size : Option Nat
  path : String
  depth : Nat
deriving DecidableEq

/-- The mutable state of one traversal: the allItems accumulator, the
visited set (line 1119), and the log of parent ids whose children the
traversal asked the backend to list, most recent first. -/
structure TravState where
  allItems : List Item
  visited : List String
  queries : List String
deriving DecidableEq

/-- The query built at lines 1125-1128: always trashed = false; mimeType
= folder when includeFiles is false; mimeType != folder when
includeFolders is false and includeFiles is true; mimeType = m when a
non-empty mimeType argument is given and includeFiles is true; pageSize
100, no orderBy. -/
def lrQuery (includeFiles includeFolders : Bool) (mimeType : Option String)
    (parentId : String) : ListQ :=
  { parentId := parentId
    conds :=
      (if !includeFiles then [MimeCond.eqFolder] else []) ++
      (if !includeFolders && includeFiles then [MimeCond.neFolder] else []) ++
      (match mimeType with
       | some m => if m != "" && includeFiles then [MimeCond.eqm m] else []
       | none => [])
    pageSize := 100
    orderByName := false }

/-- Embedding of traverseFolder (lines 1121-1153).  The fuel argument is
maxDepth - depth: the top-level call passes fuel = maxDepth and depth =
0, and every recursive call decrements fuel while incrementing depth, so
fuel = 0 exactly when the guard depth >= maxDepth fires; the zero case
returns the state unchanged just as the guard does.  The guard also
returns when the parent is already in the visited set (line 1122).  A
failing backend list call is caught (lines 1150-1152): the branch adds no
items and the caller continues with the next sibling. -/
def traverseFolder (b : Backend) (maxDepth : Nat)
    (includeFiles includeFolders : Bool) (mimeType : Option String) :
    Nat → String → Nat → String → TravState → TravState
  | 0, _, _, _, st => st
  | fuel+1, parentId, depth, path, st =>
    if maxDepth ≤ depth ∨ parentId ∈ st.visited then st
    else
      let st1 : TravState := ⟨st.allItems, parentId :: st.visited, parentId :: st.queries⟩
      if b.failing parentId then st1
      else
        (b.list (lrQuery includeFiles includeFolders mimeType parentId)).foldl
          (fun acc file =>
            let ipath := if path = "" then file.name else path ++ "/" ++ file.name
            let acc1 : TravState :=
              ⟨acc.allItems ++ [⟨file.id, file.name, file.mimeType, file.size, ipath, depth⟩],
               acc.visited, acc.queries⟩
            if file.mimeType = folderMime then
              traverseFolder b maxDepth includeFiles includeFolders mimeType
                fuel file.id (depth+1) ipath acc1
            else acc1)
          st1

/-- The whole tool call: traverseFolder(folderId) with depth 0, empty
path, empty visited set and empty accumulator (lines 1118-1155). -/
def list_folder_recursive (b : Backend) (folderId : String) (maxDepth : Nat)
    (includeFiles includeFolders : Bool) (mimeType : Option String) : TravState :=
  traverseFolder b maxDepth includeFiles includeFolders mimeType
    maxDepth folderId 0 "" ⟨[], [], []⟩

/-! Tree builder: tool get_folder_tree, src/drive/index.js lines
1167-1234. -/

/-- A node of the tree response (lines 1193-1198): id, name, the type
string (folder or file), the optional size, and the children field, which
the code attaches only when the recursive call returned a non-empty
array (lines 1200-1205); none models the absent field. -/
inductive TreeNode where
  | mk (id name kind : String) (size : Option Nat) (children : Option (List TreeNode))

/-- Children projection of a tree node. -/
def TreeNode.children : TreeNode → Option (List TreeNode)
  | .mk _ _ _ _ c => c

/-- Id projection of a tree node. -/
def TreeNode.nodeId : TreeNode → String
  | .mk i _ _ _ _ => i

/-- The children value of the response root (line 1229): the code always
writes the key, whose value is the return of buildTree — null or an
array.  The absent constructor exists only to state claims about an
omitted key; the builder never produces it at the root. -/
inductive RootChildren where
  | absent
  | jnull
  | jarr (l : List TreeNode)

/-- The root object of the get_folder_tree response (lines 1226-1230). -/
structure FolderTreeRoot where
  id : String
  name : String
  children : RootChildren

/-- The query built at lines 1181-1182 and sent at lines 1184-1189:
trashed = false, mimeType = folder when includeFiles is false, pageSize
50, orderBy name. -/
def treeQuery (includeFiles : Bool) (parentId : String) : ListQ :=
  { parentId := parentId
    conds := if !includeFiles then [MimeCond.eqFolder] else []
    pageSize := 50
    orderByName := true }

/-- Embedding of buildTree (lines 1178-1211).  fuel = maxDepth - depth as
in traverseFolder, so the zero case is the guard depth >= maxDepth
returning null (line 1179); none models the null return, some models the
items array.  There is no try/catch here: a failing list call raises and
the error propagates through every pending bind. -/
def buildTree (b : Backend) (maxDepth : Nat) (includeFiles : Bool) :
    Nat → String → Nat → Except String (Option (List TreeNode))
  | 0, _, _ => .ok none
  | fuel+1, parentId, depth =>
    if maxDepth ≤ depth then .ok none
    else if b.failing parentId then .error ("list failed: " ++ parentId)
    else do
      let items ← (b.list (treeQuery includeFiles parentId)).foldlM
        (fun (acc : List TreeNode) file => do
          let kind := if file.mimeType = folderMime then "folder" else "file"
          if file.mimeType = folderMime then
            let res ← buildTree b maxDepth includeFiles fuel file.id (depth+1)
            let ch : Option (List TreeNode) :=
              match res with
              | some l => if 0 < l.length then some l else none
              | none => none
            pure (acc ++ [TreeNode.mk file.id file.name kind file.size ch])
          else
            pure (acc ++ [TreeNode.mk file.id file.name kind file.size none]))
        []
      pure (some items)

/-- The whole tool call (lines 1213-1231): fetch the root name (the
literal My Drive for the id root, otherwise a metadata get that may
fail), then buildTree from depth 0, then wrap as the root object whose
children key always carries the buildTree result (null or array). -/
def get_folder_tree (b : Backend) (folderId : String) (maxDepth : Nat)
    (includeFiles : Bool) : Except String FolderTreeRoot := do
  let rootName ← if folderId = "root" then Except.ok "My Drive" else b.getName folderId
  let tree ← buildTree b maxDepth includeFiles maxDepth folderId 0
  Except.ok ⟨folderId, rootName,
    match tree with
    | none => RootChildren.jnull
    | some l => RootChildren.jarr l⟩

/-! Path resolver: tool get_folder_id_for_path, src/drive/index.js lines
739-784.  This tool can create folders, so the backend is an explicit
state. -/

/-- A stored backend file for the resolver: id, name, mimeType, the
parents array, and the trashed flag. -/
structure DEntry where
  id : String
  name : String
  mimeType : String
  parentIds : List String
  trashed : Bool
deriving DecidableEq

/-- The backend state seen by the resolver: the stored files in listing
order, and a counter from which created ids are drawn (created ids are
assigned by the backend; the counter is one way to mint them). -/
structure DriveState where
  files : List DEntry
  nextId : Nat
deriving DecidableEq

/-- The query of line 755: name = nm and mimeType = folder and parentId
in parents and trashed = false. -/
def folderQueryMatch (parentId nm : String) (e : DEntry) : Bool :=
  e.name == nm && e.mimeType == folderMime && e.parentIds.contains parentId && !e.trashed

/-- One list call of the resolver: pageSize 1, first match wins (lines
754-761). -/
def findFolder (s : DriveState) (parentId nm : String) : Option DEntry :=
  ((s.files.filter (folderQueryMatch parentId nm)).take 1).head?

/-- One create call (lines 764-772): a new folder entry with the given
name under the given parent is appended to the backend state and its
fresh id returned. -/
def createFolder (s : DriveState) (nm parentId : String) : String × DriveState :=
  let newId := "created-" ++ toString s.nextId
  (newId, ⟨s.files ++ [⟨newId, nm, folderMime, [parentId], false⟩], s.nextId + 1⟩)

/-- Helper for splitSlash: walk the characters, cutting at every slash;
acc holds the characters of the current segment in reverse. -/
def splitSlashAux : List Char → List Char → List String
  | [], acc => [String.mk acc.reverse]
  | c :: cs, acc =>
    if c = '/' then String.mk acc.reverse :: splitSlashAux cs []
    else splitSlashAux cs (c :: acc)

/-- The split of line 749, path.split on the slash character: cutting at
every slash, with empty segments kept (the empty path yields one empty
segment, as in JavaScript). -/
def splitSlash (s : String) : List String := splitSlashAux s.toList []

/-- The segment walk of lines 752-776: for each segment, take the first
matching folder; otherwise create it when createIfNotExists is set;
otherwise fail naming the missing segment and the full path (line 774). -/
def resolveSegments (createIfNotExists : Bool) (path : String) :
    List String → String → DriveState → Except String (String × DriveState)
  | [], parentId, s => .ok (parentId, s)
  | nm :: rest, parentId, s =>
    match findFolder s parentId nm with
    | some e => resolveSegments createIfNotExists path rest e.id s
    | none =>
      if createIfNotExists then
        let r := createFolder s nm parentId
        resolveSegments createIfNotExists path rest r.1 r.2
      else .error ("Folder not found: " ++ nm ++ " in path " ++ path)

/-- The whole tool call (lines 747-781): split the path on the slash,
discard empty segments, and walk from the well-known root id.  The result
pairs the resolved folder id with the backend state after any
creations. -/
def get_folder_id_for_path (s : DriveState) (path : String)
    (createIfNotExists : Bool) : Except String (String × DriveState) :=
  resolveSegments createIfNotExists path
    ((splitSlash path).filter (fun f => f != "")) "root" s

/-! Concrete backend fixtures used by the claims. -/

/-- Fixture: root holds folder A; A holds file x.txt and the empty folder
B.  No list call fails. -/
def b1 : Backend :=
  { childrenOf := fun pid =>
      if pid = "root" then [⟨"idA", "A", folderMime, none, false⟩]
      else if pid = "idA" then
        [⟨"idX", "x.txt", "text/plain", some 3, false⟩,
         ⟨"idB", "B", folderMime, none, false⟩]
      else []
    failing := fun _ => false
    getName := fun _ => Except.error "get failed" }

/-- Fixture: root holds folders F and G; F holds a file that is never
reachable because listing the children of F fails; G holds file g.txt. -/
def bF : Backend :=
  { childrenOf := fun pid =>
      if pid = "root" then
        [⟨"idF", "F", folderMime, none, false⟩,
         ⟨"idG", "G", folderMime, none, false⟩]
      else if pid = "idF" then [⟨"idS", "s.txt", "text/plain", none, false⟩]
      else if pid = "idG" then [⟨"idg1", "g.txt", "text/plain", none, false⟩]
      else []
    failing := fun pid => pid == "idF"
    getName := fun _ => Except.error "get failed" }

/-- Cyclic fixture: the root lists a folder entry whose id is the root
itself, so the root is its own descendant. -/
def bCyc : Backend :=
  { childrenOf := fun pid =>
      if pid = "root" then [⟨"root", "loop", folderMime, none, false⟩]
      else []
    failing := fun _ => false
    getName := fun _ => Except.error "get failed" }

/-- Fixture: root holds folder A; A holds file x.pdf of MIME type
application/pdf. -/
def bP : Backend :=
  { childrenOf := fun pid =>
      if pid = "root" then [⟨"idA", "A", folderMime, none, false⟩]
      else if pid = "idA" then
        [⟨"idP", "x.pdf", "application/pdf", some 7, false⟩]
      else []
    failing := fun _ => false
    getName := fun _ => Except.error "get failed" }

/-- Resolver fixture: an empty drive. -/
def dEmpty : DriveState := ⟨[], 0⟩

/-- Resolver fixture: a single folder named a under the root. -/
def dA : DriveState := ⟨[⟨"idA", "a", folderMime, ["root"], false⟩], 0⟩

/-- Resolver fixture: the state produced by resolving a/b with creation
on the empty drive. -/
def dAB : DriveState :=
  ⟨[⟨"created-0", "a", folderMime, ["root"], false⟩,
    ⟨"created-1", "b", folderMime, ["created-0"], false⟩], 2⟩

/-! Helper lemmas about the lister. -/

/-- The loop body of traverseFolder (lines 1137-1149), named so the fold
can be reasoned about: push the annotated item, and recurse when the
entry is a folder. -/
def travStep (b : Backend) (maxDepth : Nat) (iFi iFo : Bool) (mt : Option String)
    (fuel depth : Nat) (path : String) (acc : TravState) (file : Entry) : TravState :=
  let ipath := if path = "" then file.name else path ++ "/" ++ file.name
  let acc1 : TravState :=
    ⟨acc.allItems ++ [⟨file.id, file.name, file.mimeType, file.size, ipath, depth⟩],
     acc.visited, acc.queries⟩
  if file.mimeType = folderMime then
    traverseFolder b maxDepth iFi iFo mt fuel file.id (depth+1) ipath acc1
  else acc1

/-- Unfolding equation for traverseFolder at positive fuel, phrased with
travStep. -/
theorem traverseFolder_succ (b : Backend) (maxDepth : Nat) (iFi iFo : Bool)
    (mt : Option String) (fuel : Nat) (parentId : String) (depth : Nat)
    (path : String) (st : TravState) :
    traverseFolder b maxDepth iFi iFo mt (fuel+1) parentId depth path st =
      if maxDepth ≤ depth ∨ parentId ∈ st.visited then st
      else if b.failing parentId then
        ⟨st.allItems, parentId :: st.visited, parentId :: st.queries⟩
      else
        (b.list (lrQuery iFi iFo mt parentId)).foldl
          (travStep b maxDepth iFi iFo mt fuel depth path)
          ⟨st.allItems, parentId :: st.visited, parentId :: st.queries⟩ := rfl

/-- The item an entry contributes at a given path and depth (lines
1138-1142). -/
def itemOf (path : String) (depth : Nat) (e : Entry) : Item :=
  ⟨e.id, e.name, e.mimeType, e.size,
   if path = "" then e.name else path ++ "/" ++ e.name, depth⟩

/-- Entries of a list call with no orderBy satisfy every mimeType
conjunct of the query. -/
theorem mem_list_sat (b : Backend) (q : ListQ) (c : MimeCond)
    (hq : q.orderByName = false) (hc : c ∈ q.conds) :
    ∀ e ∈ b.list q, mimeSat c e = true := by
  intro e he
  simp only [Backend.list, hq, if_false, Bool.false_eq_true, ite_false] at he
  have he2 := List.mem_of_mem_take he
  have hp := (List.mem_filter.1 he2).2
  rw [Bool.and_eq_true] at hp
  exact List.all_eq_true.1 hp.2 c hc

/-- When a listing contains no folders, the loop pushes every entry as an
item at the current depth and never recurses. -/
theorem foldl_no_folders (b : Backend) (maxDepth : Nat) (iFi iFo : Bool)
    (mt : Option String) (fuel depth : Nat) (path : String) :
    ∀ (files : List Entry) (st : TravState),
      (∀ e ∈ files, e.mimeType ≠ folderMime) →
      files.foldl (travStep b maxDepth iFi iFo mt fuel depth path) st
        = ⟨st.allItems ++ files.map (itemOf path depth), st.visited, st.queries⟩ := by
  intro files
  induction files with
  | nil => intro st _; cases st; simp
  | cons x xs ih =>
    intro st h
    have hx : x.mimeType ≠ folderMime := h x (List.mem_cons_self _ _)
    simp only [List.foldl_cons]
    rw [show travStep b maxDepth iFi iFo mt fuel depth path st x
        = ⟨st.allItems ++ [itemOf path depth x], st.visited, st.queries⟩ from by
      simp [travStep, itemOf, hx]]
    rw [ih _ (fun e he => h e (List.mem_cons_of_mem _ he))]
    simp [itemOf]

/-- Cycle-guard invariant of a traversal state: every queried id is in
the visited set, and neither list repeats an id. -/
def TravInv (st : TravState) : Prop :=
  st.queries ⊆ st.visited ∧ st.queries.Nodup ∧ st.visited.Nodup

/-- traverseFolder preserves the cycle-guard invariant and only grows the
visited set: an id is queried only at the moment it first enters the
visited set, so no id is ever expanded twice. -/
theorem travPreserve (b : Backend) (maxDepth : Nat) (iFi iFo : Bool)
    (mt : Option String) :
    ∀ (fuel : Nat) (pid : String) (depth : Nat) (path : String) (st : TravState),
      TravInv st →
      TravInv (traverseFolder b maxDepth iFi iFo mt fuel pid depth path st) ∧
      st.visited ⊆ (traverseFolder b maxDepth iFi iFo mt fuel pid depth path st).visited := by
  intro fuel
  induction fuel with
  | zero =>
    intro pid depth path st h
    exact ⟨h, List.Subset.refl _⟩
  | succ n ih =>
    intro pid depth path st h
    rw [traverseFolder_succ]
    by_cases hg : maxDepth ≤ depth ∨ pid ∈ st.visited
    · simp only [if_pos hg]
      exact ⟨h, List.Subset.refl _⟩
    · simp only [if_neg hg]
      have hpid : pid ∉ st.visited := (not_or.1 hg).2
      obtain ⟨hsub, hndq, hndv⟩ := h
      have hinv1 : TravInv ⟨st.allItems, pid :: st.visited, pid :: st.queries⟩ := by
        refine ⟨?_, ?_, ?_⟩
        · intro a ha
          rcases List.mem_cons.1 ha with h1 | h1
          · exact h1 ▸ List.mem_cons_self _ _
          · exact List.mem_cons_of_mem _ (hsub h1)
        · exact List.nodup_cons.2 ⟨fun hc => hpid (hsub hc), hndq⟩
        · exact List.nodup_cons.2 ⟨hpid, hndv⟩
      have hmono1 : st.visited ⊆ pid :: st.visited := List.subset_cons_self _ _
      by_cases hf : b.failing pid
      · simp only [if_pos hf]
        exact ⟨hinv1, hmono1⟩
      · simp only [if_neg hf]
        have main : ∀ (files : List Entry) (a : TravState),
            TravInv a →
            TravInv (files.foldl (travStep b maxDepth iFi iFo mt n depth path) a) ∧
            a.visited ⊆ (files.foldl (travStep b maxDepth iFi iFo mt n depth path) a).visited := by
          intro files
          induction files with
          | nil => intro a ha; exact ⟨ha, List.Subset.refl _⟩
          | cons x xs ihx =>
            intro a ha
            simp only [List.foldl_cons]
            have hstep : TravInv (travStep b maxDepth iFi iFo mt n depth path a x) ∧
                a.visited ⊆ (travStep b maxDepth iFi iFo mt n depth path a x).visited := by
              simp only [travStep]
              by_cases hm : x.mimeType = folderMime
              · simp only [if_pos hm]
                exact ih x.id (depth+1) _ _ ha
              · simp only [if_neg hm]
                exact ⟨ha, List.Subset.refl _⟩
            obtain ⟨h1, h2⟩ := hstep
            have h3 := ihx _ h1
            exact ⟨h3.1, List.Subset.trans h2 h3.2⟩
        have h4 := main (b.list (lrQuery iFi iFo mt pid)) _ hinv1
        exact ⟨h4.1, List.Subset.trans hmono1 h4.2⟩

/-! Helper lemmas about the resolver. -/

/-- head? of the first page of size one is head? of the whole listing. -/
theorem take1_head {α : Type} (l : List α) : (l.take 1).head? = l.head? := by
  cases l <;> rfl

/-- The backend only grows during a resolver run: the later state lists
the same files followed by any created ones. -/
def DriveExt (s s' : DriveState) : Prop := ∃ t, s'.files = s.files ++ t

/-- DriveExt is reflexive. -/
theorem driveExt_refl (s : DriveState) : DriveExt s s := ⟨[], by simp⟩

/-- DriveExt is transitive. -/
theorem driveExt_trans {s1 s2 s3 : DriveState}
    (h1 : DriveExt s1 s2) (h2 : DriveExt s2 s3) : DriveExt s1 s3 := by
  obtain ⟨t1, ht1⟩ := h1
  obtain ⟨t2, ht2⟩ := h2
  exact ⟨t1 ++ t2, by rw [ht2, ht1, List.append_assoc]⟩

/-- Appending files to the backend cannot change a first match that
already existed: filtering preserves order and the appended files come
last. -/
theorem findFolder_mono {s s' : DriveState} {p n : String} {e : DEntry}
    (hx : DriveExt s s') (h : findFolder s p n = some e) :
    findFolder s' p n = some e := by
  obtain ⟨t, ht⟩ := hx
  unfold findFolder at h ⊢
  rw [take1_head] at h ⊢
  rw [ht, List.filter_append]
  cases hc : s.files.filter (folderQueryMatch p n) with
  | nil => rw [hc] at h; simp at h
  | cons a l =>
    rw [hc] at h
    simpa using h

/-- After a create for a name with no match, that name has a first match
under the same parent: the created folder itself. -/
theorem findFolder_create {s : DriveState} {p n : String}
    (h : findFolder s p n = none) :
    findFolder (createFolder s n p).2 p n
      = some ⟨"created-" ++ toString s.nextId, n, folderMime, [p], false⟩ := by
  unfold findFolder at h ⊢
  rw [take1_head] at h ⊢
  rw [List.head?_eq_none_iff] at h
  show ((s.files ++ [_]).filter (folderQueryMatch p n)).head? = _
  rw [List.filter_append, h]
  simp [folderQueryMatch, folderMime, List.contains]

/-- A successful creating walk only extends the backend state. -/
theorem resolve_extends (path : String) :
    ∀ (segs : List String) (parent : String) (s : DriveState)
      (x : String) (s' : DriveState),
      resolveSegments true path segs parent s = .ok (x, s') → DriveExt s s' := by
  intro segs
  induction segs with
  | nil =>
    intro parent s x s' h
    simp only [resolveSegments, Except.ok.injEq, Prod.mk.injEq] at h
    exact h.2 ▸ driveExt_refl s
  | cons nm rest ih =>
    intro parent s x s' h
    rw [resolveSegments] at h
    cases hf : findFolder s parent nm with
    | some e =>
      rw [hf] at h
      exact ih e.id s x s' h
    | none =>
      rw [hf] at h
      rw [if_pos rfl] at h
      exact driveExt_trans
        ⟨[⟨"created-" ++ toString s.nextId, nm, folderMime, [parent], false⟩], rfl⟩
        (ih _ _ x s' h)

/-- Chain-following: a walk without creation over any extension of the
final state of a successful creating walk follows the same parent chain
and resolves to the same id. -/
theorem resolve_follow (path : String) :
    ∀ (segs : List String) (parent : String) (s : DriveState)
      (x : String) (s' : DriveState),
      resolveSegments true path segs parent s = .ok (x, s') →
      ∀ (s'' : DriveState), DriveExt s' s'' →
        resolveSegments false path segs parent s'' = .ok (x, s'') := by
  intro segs
  induction segs with
  | nil =>
    intro parent s x s' h s'' _
    simp only [resolveSegments, Except.ok.injEq, Prod.mk.injEq] at h ⊢
    exact ⟨h.1, trivial⟩
  | cons nm rest ih =>
    intro parent s x s' h s'' hx
    rw [resolveSegments] at h
    rw [resolveSegments]
    cases hf : findFolder s parent nm with
    | some e =>
      rw [hf] at h
      have hse : DriveExt s s' := resolve_extends path rest e.id s x s' h
      rw [findFolder_mono (driveExt_trans hse hx) hf]
      exact ih e.id s x s' h s'' hx
    | none =>
      rw [hf] at h
      rw [if_pos rfl] at h
      have h1 : DriveExt (createFolder s nm parent).2 s' :=
        resolve_extends path rest _ _ x s' h
      rw [findFolder_mono (driveExt_trans h1 hx) (findFolder_create hf)]
      exact ih (createFolder s nm parent).1 _ x s' h s'' hx

/-- A successful walk without creation leaves the backend unchanged and
gives the same answer as a walk with creation allowed. -/
theorem resolve_false_pure (path : String) :
    ∀ (segs : List String) (parent : String) (s : DriveState)
      (x : String) (s' : DriveState),
      resolveSegments false path segs parent s = .ok (x, s') →
      s' = s ∧ resolveSegments true path segs parent s = .ok (x, s) := by
  intro segs
  induction segs with
  | nil =>
    intro parent s x s' h
    simp only [resolveSegments, Except.ok.injEq, Prod.mk.injEq] at h ⊢
    exact ⟨h.2.symm, h.1, trivial⟩
  | cons nm rest ih =>
    intro parent s x s' h
    rw [resolveSegments] at h
    rw [resolveSegments]
    cases hf : findFolder s parent nm with
    | some e =>
      rw [hf] at h
      exact ih e.id s x s' h
    | none =>
      rw [hf] at h
      simp at h

/-- The requested path string only flavours the error message; a
successful walk does not depend on it. -/
theorem resolve_path_free (c : Bool) (p1 p2 : String) :
    ∀ (segs : List String) (parent : String) (s : DriveState)
      (r : String × DriveState),
      resolveSegments c p1 segs parent s = .ok r →
      resolveSegments c p2 segs parent s = .ok r := by
  intro segs
  induction segs with
  | nil => intro parent s r h; exact h
  | cons nm rest ih =>
    intro parent s r h
    rw [resolveSegments] at h
    rw [resolveSegments]
    cases hf : findFolder s parent nm with
    | some e =>
      rw [hf] at h
      exact ih e.id s r h
    | none =>
      rw [hf] at h
      cases c with
      | true => rw [if_pos rfl] at h ⊢; exact ih _ _ r h
      | false => simp at h

/-! The claims. -/

/-- C1 counterexample: against the fixture root holding folder A, with A
holding file x.txt and empty folder B, listRecursive with maxDepth 1 and
both include flags set does not return the three claimed entries: the
guard stops before listing the children of A, whose depth would be the
boundary depth 1. -/
theorem c1_counterexample :
    (list_folder_recursive b1 "root" 1 true true none).allItems.map
      (fun i => (i.path, i.depth))
      ≠ [("A", 0), ("A/x.txt", 1), ("A/B", 1)] := by decide

/-- C1 amended: with maxDepth 1 only the depth 0 entry A is returned,
because the traversal refuses to list any folder at depth at least
maxDepth, so no entry of depth maxDepth or deeper is collected; the
claimed three entry output arises at maxDepth 2. -/
theorem c1_amended :
    (list_folder_recursive b1 "root" 1 true true none).allItems.map
      (fun i => (i.path, i.depth)) = [("A", 0)] ∧
    (list_folder_recursive b1 "root" 2 true true none).allItems.map
      (fun i => (i.path, i.depth)) = [("A", 0), ("A/x.txt", 1), ("A/B", 1)] :=
  ⟨by decide, by decide⟩

/-- C2 counterexample: with includeFolders false and includeFiles true,
against the fixture root holding folder A and A holding leaf x.txt, the
output is empty even though a leaf sits at depth 1 below the root and
maxDepth is 5: the folder-excluding condition is part of the backend
query, so A is never returned, never traversed, and its leaf never
reached. -/
theorem c2_counterexample :
    (list_folder_recursive b1 "root" 5 true false none).allItems = [] ∧
    (⟨"idX", "x.txt", "text/plain", some 3, false⟩ : Entry) ∈ b1.childrenOf "idA" ∧
    (⟨"idA", "A", folderMime, none, false⟩ : Entry) ∈ b1.childrenOf "root" := by
  refine ⟨by decide, by decide, by decide⟩

/-- C2 amended: with includeFolders false and includeFiles true, the
output contains zero container entries, but containers are not traversed
either: the query itself excludes folders, so the result is exactly the
first page of non-folder direct children of the root, each at depth 0
with its bare name as path. -/
theorem c2_amended (b : Backend) (folderId : String) (maxDepth : Nat)
    (mt : Option String) (h1 : 1 ≤ maxDepth) (h2 : b.failing folderId = false) :
    (list_folder_recursive b folderId maxDepth true false mt).allItems
      = (b.list (lrQuery true false mt folderId)).map (itemOf "" 0) ∧
    ∀ i ∈ (list_folder_recursive b folderId maxDepth true false mt).allItems,
      i.mimeType ≠ folderMime ∧ i.depth = 0 := by
  obtain ⟨k, rfl⟩ : ∃ k, maxDepth = k + 1 := by
    cases maxDepth with
    | zero => omega
    | succ k => exact ⟨k, rfl⟩
  have hnf : ∀ e ∈ b.list (lrQuery true false mt folderId), e.mimeType ≠ folderMime := by
    intro e he
    have hc : MimeCond.neFolder ∈ (lrQuery true false mt folderId).conds := by
      simp [lrQuery]
    have := mem_list_sat b (lrQuery true false mt folderId) MimeCond.neFolder rfl hc e he
    simpa [mimeSat] using this
  have hrun : (list_folder_recursive b folderId (k+1) true false mt).allItems
      = (b.list (lrQuery true false mt folderId)).map (itemOf "" 0) := by
    show (traverseFolder b (k+1) true false mt (k+1) folderId 0 "" ⟨[], [], []⟩).allItems
      = (b.list (lrQuery true false mt folderId)).map (itemOf "" 0)
    rw [traverseFolder_succ]
    rw [if_neg (by simp), if_neg (by simp [h2])]
    rw [foldl_no_folders b (k+1) true false mt k 0 "" _ _ hnf]
    simp
  refine ⟨hrun, ?_⟩
  intro i hi
  rw [hrun] at hi
  obtain ⟨e, he, rfl⟩ := List.mem_map.1 hi
  exact ⟨hnf e he, rfl⟩

/-- C2 witness: the amended statement applied to the fixture backend at
its concrete parameters. -/
theorem c2_witness :
    (1 ≤ 5) ∧ (b1.failing "root" = false) ∧
    (list_folder_recursive b1 "root" 5 true false none).allItems
      = (b1.list (lrQuery true false none "root")).map (itemOf "" 0) :=
  ⟨by decide, rfl, (c2_amended b1 "root" 5 none (by decide) rfl).1⟩

/-- C3 counterexample: buildTree on the fixture with maxDepth 2 and
includeLeaves false returns A with a children field holding the empty
folder B, not A with the children field absent: the folders-only query
still returns B among the children of A, and B is pushed into the items
of A unconditionally; only the children field of B itself is omitted. -/
theorem c3_counterexample :
    get_folder_tree b1 "root" 2 false
      = .ok ⟨"root", "My Drive",
          RootChildren.jarr [TreeNode.mk "idA" "A" "folder" none
            (some [TreeNode.mk "idB" "B" "folder" none none])]⟩ ∧
    (TreeNode.mk "idA" "A" "folder" none
      (some [TreeNode.mk "idB" "B" "folder" none none])).children ≠ none :=
  ⟨rfl, by simp [TreeNode.children]⟩

/-- C3 amended: buildTree(root, maxDepth 2, includeLeaves false) returns
the root with children the single node A, where A carries a children
field holding the single node B and B carries no children field; the leaf
x.txt is absent, excluded by the folders-only query, but the empty folder
B is present as a childless node of A. -/
theorem c3_amended :
    get_folder_tree b1 "root" 2 false
      = .ok ⟨"root", "My Drive",
          RootChildren.jarr [TreeNode.mk "idA" "A" "folder" none
            (some [TreeNode.mk "idB" "B" "folder" none none])]⟩ := rfl

/-- C4 counterexample: with a MIME filter for application/pdf and both
include flags set, against the fixture root holding folder A and A
holding leaf x.pdf of exactly that MIME type, the output is empty: the
filter is part of the backend query, so the container A is excluded by
it, never traversed, and the matching leaf below it never emitted. -/
theorem c4_counterexample :
    (list_folder_recursive bP "root" 5 true true (some "application/pdf")).allItems = [] ∧
    (⟨"idP", "x.pdf", "application/pdf", some 7, false⟩ : Entry) ∈ bP.childrenOf "idA" ∧
    (⟨"idA", "A", folderMime, none, false⟩ : Entry) ∈ bP.childrenOf "root" := by
  refine ⟨by decide, by decide, by decide⟩

/-- C4 amended: a non-empty MIME filter different from the folder MIME
type, with includeFiles true, excludes containers as well as
non-matching leaves, because it is injected into the backend query;
subfolders are therefore not traversed, and the output is exactly the
first page of direct children of the root matching the filter, each a
leaf at depth 0. -/
theorem c4_amended (b : Backend) (folderId : String) (maxDepth : Nat)
    (iFo : Bool) (M : String) (hM1 : M ≠ folderMime) (hM2 : M ≠ "")
    (h1 : 1 ≤ maxDepth) (h2 : b.failing folderId = false) :
    (list_folder_recursive b folderId maxDepth true iFo (some M)).allItems
      = (b.list (lrQuery true iFo (some M) folderId)).map (itemOf "" 0) ∧
    ∀ i ∈ (list_folder_recursive b folderId maxDepth true iFo (some M)).allItems,
      i.mimeType = M ∧ i.depth = 0 := by
  obtain ⟨k, rfl⟩ : ∃ k, maxDepth = k + 1 := by
    cases maxDepth with
    | zero => omega
    | succ k => exact ⟨k, rfl⟩
  have hM2b : (M != "") = true := by simpa using hM2
  have hc : MimeCond.eqm M ∈ (lrQuery true iFo (some M) folderId).conds := by
    simp [lrQuery, hM2b]
  have hMv : ∀ e ∈ b.list (lrQuery true iFo (some M) folderId), e.mimeType = M := by
    intro e he
    have := mem_list_sat b (lrQuery true iFo (some M) folderId) (MimeCond.eqm M) rfl hc e he
    simpa [mimeSat] using this
  have hnf : ∀ e ∈ b.list (lrQuery true iFo (some M) folderId),
      e.mimeType ≠ folderMime := by
    intro e he
    rw [hMv e he]
    exact hM1
  have hrun : (list_folder_recursive b folderId (k+1) true iFo (some M)).allItems
      = (b.list (lrQuery true iFo (some M) folderId)).map (itemOf "" 0) := by
    show (traverseFolder b (k+1) true iFo (some M) (k+1) folderId 0 "" ⟨[], [], []⟩).allItems
      = (b.list (lrQuery true iFo (some M) folderId)).map (itemOf "" 0)
    rw [traverseFolder_succ]
    rw [if_neg (by simp), if_neg (by simp [h2])]
    rw [foldl_no_folders b (k+1) true iFo (some M) k 0 "" _ _ hnf]
    simp
  refine ⟨hrun, ?_⟩
  intro i hi
  rw [hrun] at hi
  obtain ⟨e, he, rfl⟩ := List.mem_map.1 hi
  exact ⟨hMv e he, rfl⟩

/-- C4 witness: the amended statement applied to the fixture backend at
its concrete parameters. -/
theorem c4_witness :
    ("application/pdf" ≠ folderMime) ∧ ("application/pdf" ≠ "") ∧ (1 ≤ 5) ∧
    (bP.failing "root" = false) ∧
    (list_folder_recursive bP "root" 5 true true (some "application/pdf")).allItems
      = (bP.list (lrQuery true true (some "application/pdf") "root")).map (itemOf "" 0) :=
  ⟨by decide, by decide, by decide, rfl,
    (c4_amended bP "root" 5 true "application/pdf" (by decide) (by decide)
      (by decide) rfl).1⟩

/-- C5: for every backend, cyclic ones included, the traversal is a total
function (the embedding terminates by the fuel maxDepth, exactly the
depth guard of line 1122) and no container id is ever expanded twice: the
log of ids whose children were listed has no duplicate, and neither does
the visited set.  The last two conjuncts run the lister on a concrete
cyclic backend, where the root lists itself as its own child folder: the
self loop is expanded once and only once. -/
theorem c5_traversal_nodup :
    (∀ (b : Backend) (folderId : String) (maxDepth : Nat) (iFi iFo : Bool)
        (mt : Option String),
      (list_folder_recursive b folderId maxDepth iFi iFo mt).queries.Nodup ∧
      (list_folder_recursive b folderId maxDepth iFi iFo mt).visited.Nodup) ∧
    (list_folder_recursive bCyc "root" 5 true true none).queries = ["root"] ∧
    (list_folder_recursive bCyc "root" 5 true true none).allItems.map
      (fun i => (i.id, i.path, i.depth)) = [("root", "loop", 0)] := by
  refine ⟨?_, by decide, by decide⟩
  intro b folderId maxDepth iFi iFo mt
  have h := travPreserve b maxDepth iFi iFo mt maxDepth folderId 0 "" ⟨[], [], []⟩
    ⟨List.nil_subset _, List.nodup_nil, List.nodup_nil⟩
  exact ⟨h.1.2.1, h.1.2.2⟩

/-- C6: error-handling asymmetry.  First conjunct, fully general: when
the backend list call for a folder fails, the lister branch rooted there
contributes no items at all (the state keeps exactly the items it had),
and by construction the enclosing fold continues with the next sibling.
The remaining conjuncts run the fixture where listing the children of F
fails while its sibling G works: the lister still returns F, G and the
leaf under G, while buildTree on the very same backend aborts with the
propagated error and returns no tree at all. -/
theorem c6_error_asymmetry :
    (∀ (b : Backend) (maxDepth : Nat) (iFi iFo : Bool) (mt : Option String)
        (fuel : Nat) (pid : String) (depth : Nat) (path : String) (st : TravState),
      b.failing pid = true →
      (traverseFolder b maxDepth iFi iFo mt fuel pid depth path st).allItems
        = st.allItems) ∧
    (list_folder_recursive bF "root" 5 true true none).allItems.map
      (fun i => (i.path, i.depth)) = [("F", 0), ("G", 0), ("G/g.txt", 1)] ∧
    get_folder_tree bF "root" 2 true = .error ("list failed: " ++ "idF") := by
  refine ⟨?_, by decide, rfl⟩
  intro b maxDepth iFi iFo mt fuel pid depth path st h
  cases fuel with
  | zero => rfl
  | succ n =>
    rw [traverseFolder_succ]
    split <;> simp [h]

/-- C6 witness: the general conjunct applied to the failing folder of the
fixture, starting from the empty traversal state. -/
theorem c6_witness :
    bF.failing "idF" = true ∧
    (traverseFolder bF 5 true true none 5 "idF" 0 "" ⟨[], [], []⟩).allItems = [] :=
  ⟨rfl, c6_error_asymmetry.1 bF 5 true true none 5 "idF" 0 "" ⟨[], [], []⟩ rfl⟩

/-- C7: if a creating resolution of a path succeeds with id x, then an
immediately following non-creating resolution of the same path against
the resulting backend state succeeds with the same id x (and, creating
nothing, leaves that state as it is). -/
theorem c7_resolve_idempotent (s : DriveState) (p : String) (x : String)
    (s' : DriveState) (_hne : "" ∉ splitSlash p)
    (h : get_folder_id_for_path s p true = .ok (x, s')) :
    get_folder_id_for_path s' p false = .ok (x, s') := by
  unfold get_folder_id_for_path at h ⊢
  exact resolve_follow p _ "root" s x s' h s' (driveExt_refl s')

/-- C7 witness: resolving a/b with creation on the empty drive creates
two folders and yields created-1; the follow-up lookup without creation
returns the same id. -/
theorem c7_witness :
    ("" ∉ splitSlash "a/b") ∧
    get_folder_id_for_path dEmpty "a/b" true = .ok ("created-1", dAB) ∧
    get_folder_id_for_path dAB "a/b" false = .ok ("created-1", dAB) :=
  ⟨by decide, rfl, c7_resolve_idempotent dEmpty "a/b" "created-1" dAB (by decide) rfl⟩

/-- C9: a path whose segment list is empty after discarding empty
segments resolves to the literal root id with the backend unchanged, for
either flag value; and the paths /a//b/ and a/b resolve interchangeably,
every successful outcome of one being a successful outcome of the other,
since both reduce to the same segment list a, b. -/
theorem c9_root_and_equiv :
    (∀ (s : DriveState) (c : Bool) (p : String),
        (splitSlash p).filter (fun f => f != "") = [] →
        get_folder_id_for_path s p c = .ok ("root", s)) ∧
    (∀ (s : DriveState) (c : Bool) (r : String × DriveState),
        get_folder_id_for_path s "/a//b/" c = .ok r ↔
        get_folder_id_for_path s "a/b" c = .ok r) := by
  constructor
  · intro s c p h
    unfold get_folder_id_for_path
    rw [h]
    rfl
  · intro s c r
    have e1 : (splitSlash "/a//b/").filter (fun f => f != "") = ["a", "b"] := by decide
    have e2 : (splitSlash "a/b").filter (fun f => f != "") = ["a", "b"] := by decide
    constructor
    · intro h
      unfold get_folder_id_for_path at h ⊢
      rw [e1] at h
      rw [e2]
      exact resolve_path_free c "/a//b/" "a/b" ["a", "b"] "root" s r h
    · intro h
      unfold get_folder_id_for_path at h ⊢
      rw [e2] at h
      rw [e1]
      exact resolve_path_free c "a/b" "/a//b/" ["a", "b"] "root" s r h

/-- C9 witness: the empty path resolves to root on the empty drive with
creation requested. -/
theorem c9_witness :
    get_folder_id_for_path dEmpty "" true = .ok ("root", dEmpty) :=
  c9_root_and_equiv.1 dEmpty true "" (by decide)

/-- C10: a successful resolution without creation leaves the backend
state untouched, and rerunning it with createIfNotExists true takes the
found branch at every segment, issuing no create and returning the same
id over the same unchanged state. -/
theorem c10_no_create (s : DriveState) (p : String) (x : String)
    (s' : DriveState) (h : get_folder_id_for_path s p false = .ok (x, s')) :
    s' = s ∧ get_folder_id_for_path s p true = .ok (x, s) := by
  unfold get_folder_id_for_path at h ⊢
  exact resolve_false_pure p _ "root" s x s' h

/-- C10 witness: on the drive holding one folder a under root, resolving
a without creation succeeds, and the theorem yields the same result with
creation allowed over the unchanged state. -/
theorem c10_witness :
    get_folder_id_for_path dA "a" false = .ok ("idA", dA) ∧
    get_folder_id_for_path dA "a" true = .ok ("idA", dA) :=
  ⟨rfl, (c10_no_create dA "a" "idA" dA rfl).2⟩

/-- C8 counterexample: buildTree with maxDepth 0 materializes the root
with its id and name, but the children key is present and null (the code
always writes it with the buildTree return value), not absent. -/
theorem c8_counterexample :
    get_folder_tree b1 "root" 0 false
      = .ok ⟨"root", "My Drive", RootChildren.jnull⟩ ∧
    RootChildren.jnull ≠ RootChildren.absent :=
  ⟨rfl, fun h => RootChildren.noConfusion h⟩

/-- C8 amended: buildTree(root, maxDepth 0) returns the root node with
its id and name and a children key set to null; no child listing is
fetched for the root, witnessed by the result being one and the same for
every backend, including any whose every list call fails. -/
theorem c8_amended (b : Backend) (iFi : Bool) :
    get_folder_tree b "root" 0 iFi = .ok ⟨"root", "My Drive", RootChildren.jnull⟩ := rfl
